import Mathlib

/-!
Shallow embedding of the zincati update-agent core, translated from the
repository sources:

* `src/src/update_agent/actor.rs` — the per-tick decision procedure of the
  update agent (`tick_initialize`, `tick_check_updates`, `tick_stage_update`,
  `tick_finalize_update`), the scheduler (`should_tick_immediately`,
  `refresh_delay`, `add_jitter`).
* `src/src/dbus/updates.rs` — the IPC surface (`check_update`).
* `src/src/rpm_ostree/cli_status.rs` — the cached status query (`status_json`)
  and release parsing (`DeploymentJSON::into_release`,
  `parse_local_deployments`).

External effects (subprocess results, strategy predicates, the update-graph
answer, random draws, directory mtimes) are passed in as explicit arguments,
and the side effects a tick performs (which collaborators it invokes, which
counters it bumps) are returned as explicit record fields.  State-helper
methods of `UpdateAgentState` and the `Release` ordering live in repository
files that are not part of the given sources; those are modelled from the
specification and marked as such in their doc comments.
-/

namespace Zincati

/-- An OS release, from `rpm_ostree::Release` (declaration not among the given
sources).  Modelled from the spec: an immutable triple
`{version, checksum, age_index}`.  `u64` age indices are modelled as `Nat`. -/
structure Release where
  version : String
  checksum : String
  age_index : Option Nat
  deriving DecidableEq, Repr

/-- The update-agent state machine's states, from `UpdateAgentState`
(declaration not among the given sources).  Modelled from the spec: a tagged
union with initial `StartState` and terminal `EndState`; `UpdateAvailable`
carries a release and a deploy-failure count, `UpdateStaged` a release and the
remaining postponements (`u8` counters modelled as `Nat`). -/
inductive UpdateAgentState where
  | StartState
  | Initialized
  | ReportedSteady
  | NoNewUpdate
  | UpdateAvailable (release : Release) (deploy_fail_count : Nat)
  | UpdateStaged (release : Release) (postponements_remaining : Nat)
  | UpdateFinalized (release : Release)
  | EndState
  deriving DecidableEq, Repr

/-- Modelled from the spec: `MAX_POSTPONEMENTS` is an implementation-chosen
finite constant that is at least 10; we pick 10.  (Source constant
`MAX_FINALIZE_POSTPONEMENTS` in `update_agent/mod.rs`, not among the given
sources.) -/
def MAX_FINALIZE_POSTPONEMENTS : Nat := 10

/-- Modelled from the spec: `MAX_DEPLOY_ATTEMPTS` is an implementation-chosen
finite constant that is at least 3; we pick 12.  (Source constant in
`update_agent/mod.rs`, not among the given sources.) -/
def MAX_DEPLOY_ATTEMPTS : Nat := 12

/-- Modelled from the spec: `(*state).initialized()` sets the state to
`Initialized`. -/
def UpdateAgentState.initialized (_s : UpdateAgentState) : UpdateAgentState :=
  .Initialized

/-- Modelled from the spec: `(*state).end()` sets the state to the terminal
`EndState`.  (Named `to_end` because `end` is a Lean keyword.) -/
def UpdateAgentState.to_end (_s : UpdateAgentState) : UpdateAgentState :=
  .EndState

/-- Modelled from the spec: `(*state).reported_steady()` sets the state to
`ReportedSteady`. -/
def UpdateAgentState.reported_steady (_s : UpdateAgentState) : UpdateAgentState :=
  .ReportedSteady

/-- Modelled from the spec: `(*state).no_new_update()` sets the state to
`NoNewUpdate`. -/
def UpdateAgentState.no_new_update (_s : UpdateAgentState) : UpdateAgentState :=
  .NoNewUpdate

/-- Modelled from the spec: `(*state).update_available(release)` sets the state
to `UpdateAvailable(release, 0)`. -/
def UpdateAgentState.update_available (_s : UpdateAgentState) (release : Release) :
    UpdateAgentState :=
  .UpdateAvailable release 0

/-- Modelled from the spec: `(*state).update_staged(release)` sets the state to
`UpdateStaged(release, MAX_POSTPONEMENTS)` — the postponement counter starts at
(or is reset to) `MAX_FINALIZE_POSTPONEMENTS` on every entry. -/
def UpdateAgentState.update_staged (_s : UpdateAgentState) (release : Release) :
    UpdateAgentState :=
  .UpdateStaged release MAX_FINALIZE_POSTPONEMENTS

/-- Modelled from the spec: `(*state).update_finalized(release)` sets the state
to `UpdateFinalized(release)`. -/
def UpdateAgentState.update_finalized (_s : UpdateAgentState) (release : Release) :
    UpdateAgentState :=
  .UpdateFinalized release

/-- Modelled from the spec: `(*state).record_postponement()` decrements the
postponement counter of an `UpdateStaged` state; the counter cannot go below
zero (`Nat` subtraction saturates at 0). -/
def UpdateAgentState.record_postponement : UpdateAgentState → UpdateAgentState
  | .UpdateStaged release p => .UpdateStaged release (p - 1)
  | s => s

/-- Modelled from the spec: `(*state).usersessions_can_finalize()` consults the
active interactive user sessions (passed here as the explicit input
`sessions_block`) and the postponement counter: finalization is blocked by user
sessions only while sessions are active and `postponements_remaining > 0`; when
the counter reaches zero the attempt proceeds regardless of active sessions.
Only called from `UpdateStaged`; on other states it answers `true`. -/
def UpdateAgentState.usersessions_can_finalize (s : UpdateAgentState)
    (sessions_block : Bool) : Bool :=
  match s with
  | .UpdateStaged _ p => !sessions_block || p == 0
  | _ => true

/-- Modelled from the spec: `(*state).record_failed_deploy()` increments the
deploy-failure count of an `UpdateAvailable` state; when it reaches
`MAX_DEPLOY_ATTEMPTS` the target is abandoned and the state becomes
`NoNewUpdate`.  Returns `(new state, is_abandoned, fail_count)` as in the
source's `(is_abandoned, fail_count)` pair plus the in-place state update. -/
def UpdateAgentState.record_failed_deploy :
    UpdateAgentState → UpdateAgentState × Bool × Nat
  | .UpdateAvailable release n =>
    let fail_count := n + 1
    if fail_count = MAX_DEPLOY_ATTEMPTS then
      (.NoNewUpdate, true, fail_count)
    else
      (.UpdateAvailable release fail_count, false, fail_count)
  | s => (s, false, 0)

/-- `std::mem::discriminant` on `UpdateAgentState`, as used by
`UpdateAgent::should_tick_immediately` (actor.rs line 179): the variant tag,
ignoring payloads. -/
def discriminant : UpdateAgentState → Nat
  | .StartState => 0
  | .Initialized => 1
  | .ReportedSteady => 2
  | .NoNewUpdate => 3
  | .UpdateAvailable _ _ => 4
  | .UpdateStaged _ _ => 5
  | .UpdateFinalized _ => 6
  | .EndState => 7

/-- `UpdateAgent::should_tick_immediately` (actor.rs lines 175-191): a state
change triggers an immediate tick, unless transitioning from `ReportedSteady`
to `NoNewUpdate`. -/
def should_tick_immediately (prev_state cur_state : UpdateAgentState) : Bool :=
  if discriminant prev_state ≠ discriminant cur_state then
    if ¬(prev_state = UpdateAgentState.ReportedSteady ∧
         cur_state = UpdateAgentState.NoNewUpdate) then
      true
    else
      false
  else
    false

/-- Saturating `u64` addition (`u64::saturating_add`), on `Nat` with the
explicit bound `2 ^ 64 - 1`. -/
def u64_saturating_add (a b : Nat) : Nat := min (a + b) (2 ^ 64 - 1)

/-- Saturating `u64` multiplication (`u64::saturating_mul`), on `Nat` with the
explicit bound `2 ^ 64 - 1`. -/
def u64_saturating_mul (a b : Nat) : Nat := min (a * b) (2 ^ 64 - 1)

/-- `UpdateAgent::add_jitter` (actor.rs lines 197-204), with the random draw
`rand ∈ [0, 10]` passed in explicitly: the period's whole seconds plus
`max(secs / 100, 1)` saturating-times the draw, saturating-added. -/
def add_jitter (rand : Nat) (period_secs : Nat) : Nat :=
  u64_saturating_add period_secs
    (u64_saturating_mul (max (period_secs / 100) 1) rand)

/-- Modelled from the spec: `UpdateAgentState::get_refresh_delay` (in
`update_agent/mod.rs`, not among the given sources) returns the per-state base
delay in seconds and whether it should be jittered: `NoNewUpdate` gets the
configurable steady interval, jittered; `UpdateStaged` a short strategy-retry
delay, jittered; every other state a short fixed delay without jitter.  The
caller in actor.rs line 165 requires this to be total. -/
def UpdateAgentState.get_refresh_delay (s : UpdateAgentState)
    (steady_interval : Nat) : Nat × Bool :=
  match s with
  | .NoNewUpdate => (steady_interval, true)
  | .UpdateStaged _ _ => (300, true)
  | _ => (5, false)

/-- `UpdateAgent::refresh_delay` (actor.rs lines 156-171): `none` means an
immediate tick; otherwise the current state's base delay, jittered when
flagged.  The random draw for the jitter is passed in explicitly. -/
def refresh_delay (steady_interval rand : Nat)
    (prev_state cur_state : UpdateAgentState) : Option Nat :=
  if should_tick_immediately prev_state cur_state then
    none
  else
    let rd := cur_state.get_refresh_delay steady_interval
    some (if rd.2 then add_jitter rand rd.1 else rd.1)

/-- Side effects performed by the initialization tick, returned explicitly:
whether driver registration was attempted, whether local deployments were
queried, and whether the "ready" notification was sent. -/
structure InitEffects where
  registered_as_driver : Bool
  queried_local_deployments : Bool
  notified_ready : Bool
  deriving DecidableEq, Repr

/-- `UpdateAgent::tick_initialize` (actor.rs lines 238-273), with `self.enabled`
passed in.  Registers as driver only when enabled, then unconditionally queries
local deployments, then sets the state to `Initialized` when enabled and to
`EndState` otherwise, and always notifies readiness.  (Named `tick_init` for
lexical reasons.) -/
def tick_init (enabled : Bool) (state : UpdateAgentState) :
    UpdateAgentState × InitEffects :=
  ((if enabled then state.initialized else state.to_end),
   ⟨enabled, true, true⟩)

/-- Side effects performed by the check-updates tick, returned explicitly:
whether local deployments were queried and whether the update-graph client's
`fetch_update_hint` was invoked. -/
structure CheckUpdatesEffects where
  queried_local_deployments : Bool
  fetched_update_hint : Bool
  deriving DecidableEq, Repr

/-- `UpdateAgent::tick_check_updates` (actor.rs lines 297-339).  The result of
`local_deployments()` and the update-graph client's answer are passed in
explicitly; on a failed deployment query the hint is not fetched and the
release is `none` (actor.rs line 318).  `Some(release)` sets
`UpdateAvailable(release, 0)`; `none` sets `NoNewUpdate`. -/
def tick_check_updates (depls_result : Except Unit (List Release))
    (update_hint : List Release → Option Release)
    (state : UpdateAgentState) : UpdateAgentState × CheckUpdatesEffects :=
  match depls_result with
  | .ok depls =>
    match update_hint depls with
    | some release => (state.update_available release, ⟨true, true⟩)
    | none => (state.no_new_update, ⟨true, true⟩)
  | .error _ => (state.no_new_update, ⟨true, false⟩)

/-- `UpdateAgent::tick_stage_update` (actor.rs lines 342-376).  The outcome of
`attempt_deploy` is passed in explicitly.  On success the state becomes
`UpdateStaged(release, MAX_FINALIZE_POSTPONEMENTS)`; on failure
`deploy_attempt_failed` records the failure via `record_failed_deploy`.
Returns `(new state, is_abandoned, fail_count)`. -/
def tick_stage_update (stage_result : Except Unit Release) (release : Release)
    (state : UpdateAgentState) : UpdateAgentState × Bool × Nat :=
  match stage_result with
  | .ok _ => (state.update_staged release, false, 0)
  | .error _ => state.record_failed_deploy

/-- `UpdateAgent::tick_finalize_update` (actor.rs lines 379-427).  The strategy
verdict, the user-session activity and the outcome of `finalize_deployment`
are passed in explicitly.  When the strategy refuses, the postponement counter
is reset via `update_staged` (actor.rs lines 395-397); when user sessions block,
a postponement is recorded; otherwise `finalize_deployment` runs and on success
the state becomes `UpdateFinalized` — on failure the state is left as is.
Returns the new state and whether `finalize_deployment` was invoked. -/
def tick_finalize_update (strategy_can_finalize sessions_block : Bool)
    (finalize_result : Except Unit Release) (release : Release)
    (state : UpdateAgentState) : UpdateAgentState × Bool :=
  if !strategy_can_finalize then
    (state.update_staged release, false)
  else if !(state.usersessions_can_finalize sessions_block) then
    (state.record_postponement, false)
  else
    match finalize_result with
    | .ok rel => (state.update_finalized rel, true)
    | .error _ => (state, true)

/-- `UpdateAgent::tick_end` (actor.rs lines 430-444): from `UpdateFinalized` the
machine just moves to `EndState`. -/
def tick_end (state : UpdateAgentState) : UpdateAgentState :=
  state.to_end

/-- `Updates::check_update` (dbus/updates.rs lines 35-52), as a pure function of
the post-tick outcome observed from the agent: `NoNewUpdate` yields `[]`,
`UpdateAvailable` yields the one-element list with the release's version, any
other state yields the "unexpected state" error.  The handler itself only
pattern-matches the returned state; it performs no state update. -/
def check_update (res : Except String UpdateAgentState) :
    Except String (List String) :=
  match res with
  | .ok state =>
    match state with
    | .NoNewUpdate => .ok []
    | .UpdateAvailable release _ => .ok [release.version]
    | _ => .error "update agent reached unexpected state after update check"
  | .error e => .error e

/-- `DeploymentJSON` (cli_status.rs lines 46-58) plus its base-commit metadata
(lines 61-67), flattened: only the fields zincati reads. -/
structure DeploymentJSON where
  booted : Bool
  base_checksum : Option String
  basearch : String
  stream : String
  checksum : String
  staged : Bool
  version : String
  deriving DecidableEq, Repr

/-- `StatusJSON` (cli_status.rs lines 40-43): the deployments list of
`rpm-ostree status --json`. -/
structure StatusJSON where
  deployments : List DeploymentJSON
  deriving DecidableEq, Repr

/-- `DeploymentJSON::base_revision` (cli_status.rs lines 80-84): the
`base_checksum` field when present, the `checksum` field otherwise. -/
def DeploymentJSON.base_revision (d : DeploymentJSON) : String :=
  d.base_checksum.getD d.checksum

/-- `DeploymentJSON::into_release` (cli_status.rs lines 71-77): checksum is the
base revision, version is kept, `age_index` is `None`. -/
def DeploymentJSON.into_release (d : DeploymentJSON) : Release :=
  { version := d.version, checksum := d.base_revision, age_index := none }

/-- Modelled from the spec: the `Release` ordering used by `BTreeSet<Release>`
for deduplication (in `rpm_ostree/mod.rs`, not among the given sources) is the
total order on `(age_index, version)`; two releases occupy the same set slot
exactly when those components agree. -/
def Release.same_set_key (a b : Release) : Bool :=
  a.age_index == b.age_index && a.version == b.version

/-- `BTreeSet::insert` on the list model: a release is added only when no
element with the same set key is already present. -/
def insertRelease (s : List Release) (r : Release) : List Release :=
  if s.any (fun x => x.same_set_key r) then s else s ++ [r]

/-- `parse_local_deployments` (cli_status.rs lines 107-118): fold the status's
deployment entries into a set, skipping staged entries when `omit_staged`. -/
def parse_local_deployments (status : StatusJSON) (omit_staged : Bool) :
    List Release :=
  status.deployments.foldl
    (fun acc entry =>
      if omit_staged && entry.staged then acc
      else insertRelease acc entry.into_release)
    []

/-- `StatusCache` contents (declared in `rpm_ostree/actor.rs`, not among the
given sources; used at cli_status.rs lines 154-167): the cached status and the
mtime it was keyed by.  Mtimes are modelled as `Nat`. -/
structure StatusCache where
  status : StatusJSON
  mtime : Nat
  deriving DecidableEq, Repr

/-- Outcome of one `status_json` query: the returned status (or error), the
cache afterwards, the increments applied to the cache-attempts and cache-misses
counters, and whether `invoke_cli_status` (the `rpm-ostree` subprocess) ran. -/
structure StatusQueryOutcome where
  result : Except Unit StatusJSON
  cache : Option StatusCache
  cache_attempts_inc : Nat
  cache_misses_inc : Nat
  invoked_rpm_ostree : Bool
  deriving Repr

/-- Miss path of `status_json` (cli_status.rs lines 161-169): bump the miss
counter, invoke `rpm-ostree status`; on success refill the cache with the new
status and the current mtime; on failure leave the cache as it was. -/
def status_json_miss (cache : Option StatusCache) (mtime : Nat)
    (invoke_result : Except Unit StatusJSON) : StatusQueryOutcome :=
  match invoke_result with
  | .ok status => ⟨.ok status, some ⟨status, mtime⟩, 1, 1, true⟩
  | .error _ => ⟨.error (), cache, 1, 1, true⟩

/-- `status_json` (cli_status.rs lines 148-170), with the deployments
directory's mtime query and the subprocess outcome passed in explicitly.  Every
call bumps the attempts counter; a failed mtime query errors out before the
cache check; a cache entry whose mtime matches is returned as is; otherwise the
miss path runs. -/
def status_json (cache : Option StatusCache) (mtime_result : Except Unit Nat)
    (invoke_result : Except Unit StatusJSON) : StatusQueryOutcome :=
  match mtime_result with
  | .error _ => ⟨.error (), cache, 1, 0, false⟩
  | .ok mtime =>
    match cache with
    | some c =>
      if c.mtime = mtime then ⟨.ok c.status, cache, 1, 0, false⟩
      else status_json_miss cache mtime invoke_result
    | none => status_json_miss cache mtime invoke_result

theorem should_tick_immediately_eq_true (prev cur : UpdateAgentState) :
    should_tick_immediately prev cur = true ↔
      (discriminant prev ≠ discriminant cur ∧
       ¬(prev = UpdateAgentState.ReportedSteady ∧
         cur = UpdateAgentState.NoNewUpdate)) := by
  unfold should_tick_immediately
  split
  · split
    · simp_all
    · simp_all
  · simp_all

/-- C1: For every tick taken in state `UpdateStaged(release, n)`: if
`strategy.can_finalize()` returns false, the state remains `UpdateStaged` with
the postponement counter reset to `MAX_FINALIZE_POSTPONEMENTS`; else if user
sessions block finalization and `postponements_remaining > 0`, the counter is
decremented and the state remains `UpdateStaged`; otherwise
`finalize(release)` is called, and on its success the state becomes
`UpdateFinalized(release)` while on its failure the state remains
`UpdateStaged`. -/
theorem C1_finalize_tick (r : Release) (p : Nat) (scf sessions : Bool)
    (fin_result : Except Unit Release) :
    (scf = false →
      tick_finalize_update scf sessions fin_result r (.UpdateStaged r p)
        = (.UpdateStaged r MAX_FINALIZE_POSTPONEMENTS, false)) ∧
    (scf = true → sessions = true → 0 < p →
      tick_finalize_update scf sessions fin_result r (.UpdateStaged r p)
        = (.UpdateStaged r (p - 1), false)) ∧
    (scf = true → (sessions = false ∨ p = 0) →
      (tick_finalize_update scf sessions fin_result r (.UpdateStaged r p)).2
          = true ∧
      (∀ rel, fin_result = .ok rel →
        (tick_finalize_update scf sessions fin_result r (.UpdateStaged r p)).1
          = .UpdateFinalized rel) ∧
      (fin_result = .error () →
        (tick_finalize_update scf sessions fin_result r (.UpdateStaged r p)).1
          = .UpdateStaged r p)) := by
  refine ⟨?_, ?_, ?_⟩
  · intro h
    subst h
    rfl
  · intro h1 h2 h3
    subst h1
    subst h2
    have hp : (p == 0) = false := by
      simpa using Nat.pos_iff_ne_zero.mp h3
    simp [tick_finalize_update, UpdateAgentState.usersessions_can_finalize, hp,
      UpdateAgentState.record_postponement]
  · intro h1 h2
    subst h1
    have hu : (UpdateAgentState.UpdateStaged r p).usersessions_can_finalize
        sessions = true := by
      rcases h2 with h | h
      · subst h
        simp [UpdateAgentState.usersessions_can_finalize]
      · subst h
        simp [UpdateAgentState.usersessions_can_finalize]
    refine ⟨?_, ?_, ?_⟩
    · cases fin_result with
      | ok rel => simp [tick_finalize_update, hu]
      | error e => simp [tick_finalize_update, hu]
    · intro rel hres
      subst hres
      simp [tick_finalize_update, hu, UpdateAgentState.update_finalized]
    · intro hres
      subst hres
      simp [tick_finalize_update, hu]

theorem C1_finalize_tick_witness :
    tick_finalize_update true true (.ok ⟨"v", "c", none⟩) ⟨"v", "c", none⟩
        (.UpdateStaged ⟨"v", "c", none⟩ 2)
      = (.UpdateStaged ⟨"v", "c", none⟩ 1, false) :=
  (C1_finalize_tick ⟨"v", "c", none⟩ 2 true true (.ok ⟨"v", "c", none⟩)).2.1
    rfl rfl (by decide)

/-- C2: For every tick taken in state `UpdateAvailable(release, count)`: if
staging succeeds, the state becomes
`UpdateStaged(release, MAX_FINALIZE_POSTPONEMENTS)`; if it fails,
`deploy_fail_count` is incremented to `count + 1` and exactly when it reaches
`MAX_DEPLOY_ATTEMPTS` the target is abandoned (warning flag set) and the state
becomes `NoNewUpdate`, otherwise the state remains
`UpdateAvailable(release, count + 1)`. -/
theorem C2_stage_tick (r : Release) (n : Nat)
    (stage_result : Except Unit Release) :
    (∀ rel, stage_result = .ok rel →
      tick_stage_update stage_result r (.UpdateAvailable r n)
        = (.UpdateStaged r MAX_FINALIZE_POSTPONEMENTS, false, 0)) ∧
    (stage_result = .error () →
      (n + 1 = MAX_DEPLOY_ATTEMPTS →
        tick_stage_update stage_result r (.UpdateAvailable r n)
          = (.NoNewUpdate, true, n + 1)) ∧
      (n + 1 ≠ MAX_DEPLOY_ATTEMPTS →
        tick_stage_update stage_result r (.UpdateAvailable r n)
          = (.UpdateAvailable r (n + 1), false, n + 1))) := by
  constructor
  · intro rel hres
    subst hres
    rfl
  · intro hres
    subst hres
    constructor
    · intro habandon
      simp [tick_stage_update, UpdateAgentState.record_failed_deploy, habandon]
    · intro hkeep
      simp [tick_stage_update, UpdateAgentState.record_failed_deploy, hkeep]

theorem C2_stage_tick_witness :
    tick_stage_update (.error ()) ⟨"v", "c", none⟩
        (.UpdateAvailable ⟨"v", "c", none⟩ 11)
      = (.NoNewUpdate, true, 12) :=
  ((C2_stage_tick ⟨"v", "c", none⟩ 11 (.error ())).2 rfl).1 (by decide)

/-- C3: For every pair of states `(prev, cur)`, the scheduler chooses an
immediate tick (refresh delay `none`) if and only if the discriminants of
`prev` and `cur` differ and `(prev, cur)` is not
`(ReportedSteady, NoNewUpdate)`; in every other case (equal discriminants, or
that one exceptional pair) it chooses a delayed tick (some delay). -/
theorem C3_scheduler_immediate_iff (prev cur : UpdateAgentState)
    (steady_interval rand : Nat) :
    (refresh_delay steady_interval rand prev cur = none ↔
      (discriminant prev ≠ discriminant cur ∧
       ¬(prev = UpdateAgentState.ReportedSteady ∧
         cur = UpdateAgentState.NoNewUpdate))) ∧
    ((discriminant prev = discriminant cur ∨
      (prev = UpdateAgentState.ReportedSteady ∧
       cur = UpdateAgentState.NoNewUpdate)) →
      ∃ d, refresh_delay steady_interval rand prev cur = some d) := by
  constructor
  · constructor
    · intro h
      rw [refresh_delay] at h
      by_cases hs : should_tick_immediately prev cur = true
      · exact (should_tick_immediately_eq_true prev cur).mp hs
      · simp [hs] at h
    · intro h
      rw [refresh_delay]
      simp [(should_tick_immediately_eq_true prev cur).mpr h]
  · intro h
    have hs : should_tick_immediately prev cur = false := by
      rw [Bool.eq_false_iff]
      intro hT
      rcases (should_tick_immediately_eq_true prev cur).mp hT with ⟨hne, hnp⟩
      rcases h with h | h
      · exact hne h
      · exact hnp h
    rw [refresh_delay]
    simp [hs]

theorem C3_scheduler_immediate_iff_witness :
    ∃ d, refresh_delay 300 5 UpdateAgentState.NoNewUpdate
      UpdateAgentState.NoNewUpdate = some d :=
  (C3_scheduler_immediate_iff UpdateAgentState.NoNewUpdate
    UpdateAgentState.NoNewUpdate 300 5).2 (Or.inl rfl)

/-- C4: For every period `P > 0` (in whole seconds, within the `u64` range) and
every random draw `r ≤ 10`, the jittered period satisfies
`P ≤ add_jitter r P ≤ P + 10 * max (P / 100) 1`. -/
theorem C4_add_jitter_bounds (P r : Nat) (hP : 0 < P) (hP64 : P ≤ 2 ^ 64 - 1)
    (hr : r ≤ 10) :
    P ≤ add_jitter r P ∧ add_jitter r P ≤ P + 10 * max (P / 100) 1 := by
  unfold add_jitter u64_saturating_add u64_saturating_mul
  constructor
  · exact le_min (Nat.le_add_right _ _) hP64
  · calc min (P + min (max (P / 100) 1 * r) (2 ^ 64 - 1)) (2 ^ 64 - 1)
        ≤ P + min (max (P / 100) 1 * r) (2 ^ 64 - 1) := min_le_left _ _
      _ ≤ P + max (P / 100) 1 * r :=
          Nat.add_le_add_left (min_le_left _ _) _
      _ ≤ P + max (P / 100) 1 * 10 :=
          Nat.add_le_add_left (Nat.mul_le_mul_left _ hr) _
      _ = P + 10 * max (P / 100) 1 := by ring

theorem C4_add_jitter_bounds_witness :
    250 ≤ add_jitter 10 250 ∧
      add_jitter 10 250 ≤ 250 + 10 * max (250 / 100) 1 :=
  C4_add_jitter_bounds 250 10 (by norm_num) (by norm_num) (by norm_num)

/-- C5 counterexample: the claim asserts that `fetch_update_hint` is invoked on
every CheckUpdates tick, but when the local-deployment query fails the code
(actor.rs line 318) substitutes a ready `None` without consulting the
update-graph client. -/
theorem C5_counterexample :
    (tick_check_updates (.error ()) (fun _ => none)
      UpdateAgentState.NoNewUpdate).2.fetched_update_hint = false := rfl

/-- C5 (amended): For every tick taken in state `ReportedSteady` or
`NoNewUpdate`, local deployments are queried, and `fetch_update_hint` is
invoked exactly when that query succeeds; if a release is returned the state
becomes `UpdateAvailable(release, 0)`, and if no release is returned
(including when the local deployment query fails, in which case
`fetch_update_hint` is not invoked) the state becomes `NoNewUpdate`, with no
other state ever resulting from a CheckUpdates tick. -/
theorem C5_check_updates_tick (depls_result : Except Unit (List Release))
    (update_hint : List Release → Option Release) (state : UpdateAgentState) :
    (tick_check_updates depls_result update_hint
        state).2.queried_local_deployments = true ∧
    (∀ depls, depls_result = .ok depls →
      (tick_check_updates depls_result update_hint
          state).2.fetched_update_hint = true ∧
      (∀ r, update_hint depls = some r →
        (tick_check_updates depls_result update_hint state).1
          = .UpdateAvailable r 0) ∧
      (update_hint depls = none →
        (tick_check_updates depls_result update_hint state).1
          = .NoNewUpdate)) ∧
    (depls_result = .error () →
      (tick_check_updates depls_result update_hint
          state).2.fetched_update_hint = false ∧
      (tick_check_updates depls_result update_hint state).1 = .NoNewUpdate) ∧
    ((∃ r, (tick_check_updates depls_result update_hint state).1
        = .UpdateAvailable r 0) ∨
     (tick_check_updates depls_result update_hint state).1 = .NoNewUpdate) := by
  cases depls_result with
  | ok depls =>
    refine ⟨?_, ?_, ?_, ?_⟩
    · cases hh : update_hint depls <;>
        simp [tick_check_updates, hh]
    · intro depls' hres
      cases hres
      refine ⟨?_, ?_, ?_⟩
      · cases hh : update_hint depls <;>
          simp [tick_check_updates, hh]
      · intro r hr
        simp [tick_check_updates, hr, UpdateAgentState.update_available]
      · intro hn
        simp [tick_check_updates, hn, UpdateAgentState.no_new_update]
    · intro hres
      cases hres
    · cases hh : update_hint depls with
      | none =>
        right
        simp [tick_check_updates, hh, UpdateAgentState.no_new_update]
      | some r =>
        left
        exact ⟨r, by simp [tick_check_updates, hh,
          UpdateAgentState.update_available]⟩
  | error e =>
    refine ⟨rfl, ?_, ?_, Or.inr rfl⟩
    · intro depls hres
      cases hres
    · intro _hres
      exact ⟨rfl, rfl⟩

theorem C5_check_updates_tick_witness :
    (tick_check_updates (.ok []) (fun _ => some ⟨"v", "c", none⟩)
        UpdateAgentState.NoNewUpdate).1
      = .UpdateAvailable ⟨"v", "c", none⟩ 0 :=
  (((C5_check_updates_tick (.ok []) (fun _ => some ⟨"v", "c", none⟩)
      UpdateAgentState.NoNewUpdate).2.1 [] rfl).2.1) ⟨"v", "c", none⟩ rfl

/-- C6 counterexample: the claim asserts that with `enabled = false` no
subprocess invocation of the deployment tool occurs on the first tick, but
`tick_initialize` (actor.rs line 250) queries local deployments
unconditionally, and a status query against a cold cache invokes the
`rpm-ostree` subprocess (cli_status.rs line 163). -/
theorem C6_counterexample :
    (tick_init false UpdateAgentState.StartState).1
        = UpdateAgentState.EndState ∧
    (tick_init false
        UpdateAgentState.StartState).2.queried_local_deployments = true ∧
    (status_json none (.ok 0) (.ok ⟨[]⟩)).invoked_rpm_ostree = true :=
  ⟨rfl, rfl, rfl⟩

/-- C6 (amended): When the agent starts with `enabled = false`, the first tick
moves the state from `StartState` directly to `EndState`, a ready notification
is still emitted and driver registration is skipped; however local deployments
are still queried, and on a cold status cache that query invokes the
deployment tool. -/
theorem C6_disabled_start :
    tick_init false UpdateAgentState.StartState
      = (UpdateAgentState.EndState, ⟨false, true, true⟩) ∧
    (∀ (mtime : Nat) (invoke_result : Except Unit StatusJSON),
      (status_json none (.ok mtime) invoke_result).invoked_rpm_ostree
        = true) := by
  constructor
  · rfl
  · intro mtime invoke_result
    cases invoke_result <;> rfl

/-- C7: For every post-tick state observed by the IPC CheckUpdate operation:
it returns the empty list when the state is `NoNewUpdate`, the one-element
list containing the release's version when the state is `UpdateAvailable`, and
an "unexpected state" error for every other state.  (The handler only
pattern-matches the observed state; the embedding is a pure function producing
no state, mirroring that the IPC layer itself never mutates the agent
state.) -/
theorem C7_check_update_reply :
    check_update (.ok UpdateAgentState.NoNewUpdate) = .ok [] ∧
    (∀ (r : Release) (n : Nat),
      check_update (.ok (UpdateAgentState.UpdateAvailable r n))
        = .ok [r.version]) ∧
    (∀ s : UpdateAgentState, s ≠ UpdateAgentState.NoNewUpdate →
      (∀ r n, s ≠ UpdateAgentState.UpdateAvailable r n) →
      check_update (.ok s)
        = .error "update agent reached unexpected state after update check") := by
  refine ⟨rfl, fun r n => rfl, ?_⟩
  intro s h1 h2
  cases s with
  | NoNewUpdate => exact absurd rfl h1
  | UpdateAvailable r n => exact absurd rfl (h2 r n)
  | StartState => rfl
  | Initialized => rfl
  | ReportedSteady => rfl
  | UpdateStaged r p => rfl
  | UpdateFinalized r => rfl
  | EndState => rfl

theorem C7_check_update_reply_witness :
    check_update (.ok UpdateAgentState.EndState)
      = .error "update agent reached unexpected state after update check" :=
  C7_check_update_reply.2.2 UpdateAgentState.EndState (by simp)
    (fun r n => by simp)

/-- C8: For every status query (whose mtime lookup succeeds): if a cache entry
exists and its stored mtime equals the current mtime of the deployments
directory, the cached status is returned and the deployment tool is not
invoked; otherwise the deployment tool is invoked and, when it succeeds, the
cache is refilled with the new status and mtime.  Every query increments the
cache-attempts counter by one, and exactly the queries that miss increment the
cache-misses counter. -/
theorem C8_status_cache (cache : Option StatusCache) (mtime : Nat)
    (invoke_result : Except Unit StatusJSON) :
    (status_json cache (.ok mtime) invoke_result).cache_attempts_inc = 1 ∧
    (∀ c, cache = some c → c.mtime = mtime →
      status_json cache (.ok mtime) invoke_result
        = ⟨.ok c.status, cache, 1, 0, false⟩) ∧
    ((∀ c, cache = some c → c.mtime ≠ mtime) →
      (status_json cache (.ok mtime) invoke_result).cache_misses_inc = 1 ∧
      (status_json cache (.ok mtime) invoke_result).invoked_rpm_ostree
        = true ∧
      (∀ st, invoke_result = .ok st →
        status_json cache (.ok mtime) invoke_result
          = ⟨.ok st, some ⟨st, mtime⟩, 1, 1, true⟩)) := by
  cases cache with
  | none =>
    refine ⟨?_, ?_, ?_⟩
    · cases invoke_result <;> rfl
    · intro c hc
      cases hc
    · intro _h
      refine ⟨?_, ?_, ?_⟩
      · cases invoke_result <;> rfl
      · cases invoke_result <;> rfl
      · intro st hres
        subst hres
        rfl
  | some c =>
    by_cases hm : c.mtime = mtime
    · refine ⟨?_, ?_, ?_⟩
      · simp [status_json, hm]
      · intro c' hc' _hm'
        cases hc'
        simp [status_json, hm]
      · intro hmiss
        exact absurd hm (hmiss c rfl)
    · refine ⟨?_, ?_, ?_⟩
      · cases invoke_result <;> simp [status_json, status_json_miss, hm]
      · intro c' hc' hm'
        cases hc'
        exact absurd hm' hm
      · intro _hmiss
        refine ⟨?_, ?_, ?_⟩
        · cases invoke_result <;> simp [status_json, status_json_miss, hm]
        · cases invoke_result <;> simp [status_json, status_json_miss, hm]
        · intro st hres
          subst hres
          simp [status_json, status_json_miss, hm]

theorem C8_status_cache_witness :
    status_json none (.ok 7) (.ok ⟨[]⟩)
      = ⟨.ok ⟨[]⟩, some ⟨⟨[]⟩, 7⟩, 1, 1, true⟩ :=
  ((C8_status_cache none 7 (.ok ⟨[]⟩)).2.2
    (fun c hc => Option.noConfusion hc)).2.2 ⟨[]⟩ rfl

/-- C10 counterexample: two deployment entries sharing the base revision `"c"`
but carrying different version strings parse to two distinct elements of the
deployment set (its ordering is keyed by `(age_index, version)`), so same base
revision alone does not collapse entries. -/
theorem C10_counterexample :
    (⟨false, some "c", "x86_64", "stable", "pkg1", false, "1.0"⟩ :
        DeploymentJSON).base_revision
      = (⟨false, some "c", "x86_64", "stable", "pkg2", false, "2.0"⟩ :
        DeploymentJSON).base_revision ∧
    (parse_local_deployments
      ⟨[⟨false, some "c", "x86_64", "stable", "pkg1", false, "1.0"⟩,
        ⟨false, some "c", "x86_64", "stable", "pkg2", false, "2.0"⟩]⟩
      false).length = 2 :=
  ⟨rfl, rfl⟩

/-- C10 (amended): Every `Release` produced by parsing a deployment entry has
`age_index = none`, and its checksum equals the entry's `base_checksum` when
that field is present and the entry's `checksum` field otherwise; two entries
with the same base revision and the same version string collapse to a single
element in the parsed deployment set. -/
theorem C10_into_release (e e1 e2 : DeploymentJSON)
    (hrev : e1.base_revision = e2.base_revision)
    (hver : e1.version = e2.version) :
    e.into_release.age_index = none ∧
    (∀ c, e.base_checksum = some c → e.into_release.checksum = c) ∧
    (e.base_checksum = none → e.into_release.checksum = e.checksum) ∧
    (parse_local_deployments ⟨[e1, e2]⟩ false).length = 1 := by
  refine ⟨rfl, ?_, ?_, ?_⟩
  · intro c hc
    simp [DeploymentJSON.into_release, DeploymentJSON.base_revision, hc]
  · intro hc
    simp [DeploymentJSON.into_release, DeploymentJSON.base_revision, hc]
  · simp [parse_local_deployments, insertRelease, Release.same_set_key,
      DeploymentJSON.into_release, hver]

theorem C10_into_release_witness :
    (parse_local_deployments
      ⟨[⟨false, some "c", "x86_64", "stable", "pkg1", false, "1.0"⟩,
        ⟨true, some "c", "x86_64", "stable", "pkg2", false, "1.0"⟩]⟩
      false).length = 1 :=
  (C10_into_release
    ⟨false, some "c", "x86_64", "stable", "pkg1", false, "1.0"⟩
    ⟨false, some "c", "x86_64", "stable", "pkg1", false, "1.0"⟩
    ⟨true, some "c", "x86_64", "stable", "pkg2", false, "1.0"⟩
    rfl rfl).2.2.2

end Zincati
